import Mathlib

/-!
Shallow embedding of the archinstall mirror subsystem
(archinstall/lib/mirrors.py and archinstall/lib/models/mirrors.py),
together with theorems settling the specification claims about it.

Python strings are modelled by Lean `String`; the Python string methods
used by the source (strip, startswith, replace, removeprefix,
removesuffix, splitlines, join, str(int)) are re-implemented below by
structural recursion over the character list so that every definition
is executable by the kernel (`decide` / `rfl`).  Python floats are
modelled by `Rat`, Python ints by `Int`, `datetime` values by an opaque
integer timestamp, fallible code by `Except String`.
-/

/-- Decidable equality for `Except`, so that concrete runs of the
fallible operations can be checked by `decide`. -/
instance exceptDecEq {ε α : Type} [DecidableEq ε] [DecidableEq α] :
    DecidableEq (Except ε α) := fun x y =>
  match x, y with
  | .ok a, .ok b =>
    if h : a = b then .isTrue (h ▸ rfl) else .isFalse (fun hh => h (Except.ok.inj hh))
  | .error a, .error b =>
    if h : a = b then .isTrue (h ▸ rfl) else .isFalse (fun hh => h (Except.error.inj hh))
  | .ok _, .error _ => .isFalse (fun hh => Except.noConfusion hh)
  | .error _, .ok _ => .isFalse (fun hh => Except.noConfusion hh)

/-- Whitespace set used by Python `str.strip()` (ASCII part). -/
def py_ws (c : Char) : Bool :=
  c = ' ' || c = '\t' || c = '\n' || c = '\r' || c = '\x0b' || c = '\x0c'

/-- Python `str.strip()`: drop leading and trailing whitespace. -/
def py_strip (s : String) : String :=
  ⟨((s.data.dropWhile py_ws).reverse.dropWhile py_ws).reverse⟩

/-- Python `s.startswith(p)`. -/
def py_startswith (s p : String) : Bool :=
  p.data.isPrefixOf s.data

/-- Python `s.removeprefix(p)`: drop `p` from the front when present. -/
def py_removepre (s p : String) : String :=
  if p.data.isPrefixOf s.data then ⟨s.data.drop p.data.length⟩ else s

/-- Python `s.removesuffix(p)`: drop `p` from the end when present. -/
def py_removesuf (s p : String) : String :=
  if p.data.isSuffixOf s.data then ⟨s.data.take (s.data.length - p.data.length)⟩ else s

/-- Fuel-based worker for Python `s.replace(pat, rep)` (replace all
occurrences).  The fuel is an upper bound on the number of characters
still to be inspected, so structural recursion suffices and the kernel
can evaluate it.  The source only calls this with the non-empty pattern
`"## "`; an empty pattern returns the input unchanged. -/
def py_replace_fuel (pat rep : List Char) : Nat → List Char → List Char
  | 0, s => s
  | _ + 1, [] => []
  | fuel + 1, c :: rest =>
    if pat ≠ [] ∧ pat.isPrefixOf (c :: rest) then
      rep ++ py_replace_fuel pat rep fuel ((c :: rest).drop pat.length)
    else
      c :: py_replace_fuel pat rep fuel rest

/-- Python `s.replace(pat, rep)` for a non-empty pattern. -/
def py_replace (s pat rep : String) : String :=
  ⟨py_replace_fuel pat.data rep.data s.data.length s.data⟩

/-- Python `str.splitlines()` worker: `acc` holds the current line in
reverse.  Handles the line boundaries the mirror files use
(`\n`, `\r\n`, `\r`); a trailing newline does not create an empty
final line, matching Python. -/
def py_splitlines_aux : List Char → List Char → List String
  | [], acc => if acc.isEmpty then [] else [⟨acc.reverse⟩]
  | '\r' :: '\n' :: rest, acc => (⟨acc.reverse⟩ : String) :: py_splitlines_aux rest []
  | '\n' :: rest, acc => (⟨acc.reverse⟩ : String) :: py_splitlines_aux rest []
  | '\r' :: rest, acc => (⟨acc.reverse⟩ : String) :: py_splitlines_aux rest []
  | c :: rest, acc => py_splitlines_aux rest (c :: acc)

/-- Python `str.splitlines()`. -/
def py_splitlines (s : String) : List String :=
  py_splitlines_aux s.data []

/-- Python `','.join(l)`. -/
def join_comma : List String → String
  | [] => ""
  | [x] => x
  | x :: y :: rest => x ++ "," ++ join_comma (y :: rest)

/-- Decimal digits of a natural number (fuel-based so that the kernel
can evaluate it; `fuel > n` is always sufficient). -/
def nat_digits_fuel : Nat → Nat → List Char
  | 0, _ => []
  | fuel + 1, n =>
    if n < 10 then [Nat.digitChar n]
    else nat_digits_fuel fuel (n / 10) ++ [Nat.digitChar (n % 10)]

/-- Decimal representation of a natural number. -/
def nat_str (n : Nat) : String :=
  ⟨nat_digits_fuel (n + 1) n⟩

/-- Python `str(i)` for an int. -/
def py_str_int (i : Int) : String :=
  if i < 0 then "-" ++ nat_str i.natAbs else nat_str i.natAbs

/-- Python `round()` on an exact value: round-half-to-even, computed
on the reduced numerator and denominator so that the kernel can
evaluate it.  Used only to state what the rounded score of a feed
entry would be. -/
def py_round (q : Rat) : Int :=
  let f := Int.fdiv q.num (q.den : Int)
  let r := q.num - f * (q.den : Int)
  if 2 * r < (q.den : Int) then f
  else if (q.den : Int) < 2 * r then f + 1
  else if f % 2 = 0 then f else f + 1

/-- Characters allowed in a URL scheme after the leading letter,
as accepted by `urllib.parse.urlparse`. -/
def scheme_char (c : Char) : Bool :=
  c.isAlphanum || c = '+' || c = '-' || c = '.'

/-- The `scheme` component of `urllib.parse.urlparse(url)`: the part
before the first colon, lowercased, provided it is non-empty, starts
with a letter and consists of scheme characters; otherwise `""`. -/
def py_urlparse_scheme (url : String) : String :=
  let pre := url.data.takeWhile (fun c => c ≠ ':')
  if pre.length = url.data.length then ""
  else
    match pre with
    | [] => ""
    | c :: cs =>
      if c.isAlpha ∧ (c :: cs).all scheme_char then ⟨(c :: cs).map Char.toLower⟩
      else ""

/-- Python `<` on strings (lexicographic by code point). -/
def chars_lt : List Char → List Char → Bool
  | [], [] => false
  | [], _ :: _ => true
  | _ :: _, [] => false
  | a :: as1, b :: bs => if a = b then chars_lt as1 bs else decide (a < b)

/-- Python `<=` on strings, used through `sorted(...)` on region names. -/
def py_str_le (a b : String) : Bool :=
  !(chars_lt b.data a.data)

/-! ### Mirror data model (archinstall/lib/models/mirrors.py) -/

/-- Outcome of one download attempt inside the `speed` property.
`ok v` is a successful download whose measured speed is `v` bytes per
second; `url_error` is `urllib.error.URLError` (malformed URL, refused
connection); `transient` is `http.client.IncompleteRead` or
`ConnectionResetError`; `other_error` is any other exception. -/
inductive DownloadOutcome where
  | ok (v : Rat)
  | url_error
  | transient
  | other_error
deriving DecidableEq

/-- `MirrorStatusEntryV3` from models/mirrors.py.  The `score` field
holds the raw feed float (`float | None`): the class declares a
`validate_score` field validator that would round it, but the
decorator order (`@classmethod` above `@field_validator`) wraps the
pydantic proxy in a classmethod, which pydantic v2 silently ignores
during validator collection, so the validator is never registered and
no rounding occurs.  The fields prefixed with an underscore in Python
(`_latency`, `_speed`, `_hostname`, `_port`, `_speedtest_retries`) are
the lazily populated private probe fields. -/
structure MirrorStatusEntryV3 where
  url : String
  protocol : String
  active : Bool
  country : String
  country_code : String
  isos : Bool
  ipv4 : Bool
  ipv6 : Bool
  details : String
  delay : Option Int := none
  last_sync : Option Int := none
  duration_avg : Option Rat := none
  duration_stddev : Option Rat := none
  completion_pct : Option Rat := none
  score : Option Rat := none
  latency_cache : Option Rat := none
  speed_cache : Option Rat := none
  hostname : Option String := none
  port : Option Int := none
  speedtest_retries : Option Int := none
deriving DecidableEq

/-- `server_url` property: the stored url plus the pacman placeholder. -/
def MirrorStatusEntryV3.server_url (e : MirrorStatusEntryV3) : String :=
  e.url ++ "$repo/os/$arch"

/-- The retry loop of the `speed` property.  The fuel is the normalized
`_speedtest_retries` bound; `idx` numbers the attempts.  Returns the
value of `_speed` when the loop exits together with the number of
download attempts actually performed.  One attempt is performed per
iteration; a successful download sets `_speed` to the measured value, a
`URLError` or a generic exception sets `_speed` to 0, a transient error
leaves `_speed` unset; the loop exits as soon as `_speed` is set or
the attempt budget is exhausted. -/
def speed_attempts (outcomes : Nat → DownloadOutcome) : Nat → Nat → Option Rat × Nat
  | 0, _ => (none, 0)
  | fuel + 1, idx =>
    match outcomes idx with
    | .ok v => (some v, 1)
    | .url_error => (some 0, 1)
    | .other_error => (some 0, 1)
    | .transient =>
      let r := speed_attempts outcomes fuel (idx + 1)
      (r.1, r.2 + 1)

/-- Normalization of `_speedtest_retries` at the top of the `speed`
property: a falsy value (`None` or `0`) becomes 3, a value below 1
becomes 1, anything else is kept. -/
def normalize_retries : Option Int → Int
  | none => 3
  | some r => if r = 0 then 3 else if r < 1 then 1 else r

/-- The `speed` property of `MirrorStatusEntryV3`: if `_speed` is
already set it is returned with no download attempt; otherwise the
retry loop runs and `_speed` is finalized to 0 when the loop ends
without a definitive value.  Returns the speed, the entry with its
updated private fields, and the number of download attempts made. -/
def MirrorStatusEntryV3.speed (e : MirrorStatusEntryV3) (outcomes : Nat → DownloadOutcome) :
    Rat × MirrorStatusEntryV3 × Nat :=
  match e.speed_cache with
  | some v => (v, e, 0)
  | none =>
    let r := normalize_retries e.speedtest_retries
    let res := speed_attempts outcomes r.toNat 0
    let final := res.1.getD 0
    (final, { e with speed_cache := some final, speedtest_retries := some r }, res.2)

/-- `MirrorRegion` from models/mirrors.py.  Python defines `__eq__` by
name only; theorems below compare regions structurally and state name
preservation explicitly. -/
structure MirrorRegion where
  name : String
  urls : List String
deriving DecidableEq

/-- `SignCheck` enum. -/
inductive SignCheck where
  | Never
  | Optional
  | Required
deriving DecidableEq

/-- `.value` of a `SignCheck` member. -/
def SignCheck.value : SignCheck → String
  | .Never => "Never"
  | .Optional => "Optional"
  | .Required => "Required"

/-- The `SignCheck(...)` enum constructor: fails on unknown values. -/
def SignCheck.parse : String → Except String SignCheck
  | "Never" => .ok .Never
  | "Optional" => .ok .Optional
  | "Required" => .ok .Required
  | _ => .error "ValueError: not a valid SignCheck"

/-- `SignOption` enum. -/
inductive SignOption where
  | TrustedOnly
  | TrustAll
deriving DecidableEq

/-- `.value` of a `SignOption` member. -/
def SignOption.value : SignOption → String
  | .TrustedOnly => "TrustedOnly"
  | .TrustAll => "TrustAll"

/-- The `SignOption(...)` enum constructor. -/
def SignOption.parse : String → Except String SignOption
  | "TrustedOnly" => .ok .TrustedOnly
  | "TrustAll" => .ok .TrustAll
  | _ => .error "ValueError: not a valid SignOption"

/-- `ReflectorSortOrder` enum. -/
inductive ReflectorSortOrder where
  | Age
  | Rate
  | Country
  | Score
  | Delay
deriving DecidableEq

/-- `.value` of a `ReflectorSortOrder` member. -/
def ReflectorSortOrder.value : ReflectorSortOrder → String
  | .Age => "age"
  | .Rate => "rate"
  | .Country => "country"
  | .Score => "score"
  | .Delay => "delay"

/-- The `ReflectorSortOrder(...)` enum constructor. -/
def ReflectorSortOrder.parse : String → Except String ReflectorSortOrder
  | "age" => .ok .Age
  | "rate" => .ok .Rate
  | "country" => .ok .Country
  | "score" => .ok .Score
  | "delay" => .ok .Delay
  | _ => .error "ValueError: not a valid ReflectorSortOrder"

/-- `ReflectorProtocol` enum. -/
inductive ReflectorProtocol where
  | HTTP
  | HTTPS
  | FTP
  | RSYNC
deriving DecidableEq

/-- `.value` of a `ReflectorProtocol` member. -/
def ReflectorProtocol.value : ReflectorProtocol → String
  | .HTTP => "http"
  | .HTTPS => "https"
  | .FTP => "ftp"
  | .RSYNC => "rsync"

/-- The `ReflectorProtocol(...)` enum constructor. -/
def ReflectorProtocol.parse : String → Except String ReflectorProtocol
  | "http" => .ok .HTTP
  | "https" => .ok .HTTPS
  | "ftp" => .ok .FTP
  | "rsync" => .ok .RSYNC
  | _ => .error "ValueError: not a valid ReflectorProtocol"

/-! ### Mirror repository loader (archinstall/lib/mirrors.py) -/

/-- The region-to-entries mapping held by `MirrorListHandler`.  A Python
dict with string keys is modelled as an association list in insertion
order. -/
abbrev Mapping := List (String × List MirrorStatusEntryV3)

/-- Python `d[k]` lookup on the mapping; `none` models a `KeyError`. -/
def dict_get (m : Mapping) (k : String) : Option (List MirrorStatusEntryV3) :=
  match m with
  | [] => none
  | (k0, v) :: rest => if k0 = k then some v else dict_get rest k

/-- Python `d.setdefault(k, []).append(e)`: append `e` to the list at
key `k`, inserting the key at the end of the dict when absent. -/
def setdefault_append (m : Mapping) (k : String) (e : MirrorStatusEntryV3) : Mapping :=
  match m with
  | [] => [(k, [e])]
  | (k0, v) :: rest =>
    if k0 = k then (k0, v ++ [e]) :: rest else (k0, v) :: setdefault_append rest k e

/-- Python `d.setdefault(k, [])` used on its own: insert an empty list
at key `k` when the key is absent. -/
def setdefault_empty (m : Mapping) (k : String) : Mapping :=
  match m with
  | [] => [(k, [])]
  | (k0, v) :: rest =>
    if k0 = k then (k0, v) :: rest else (k0, v) :: setdefault_empty rest k

/-- The raw JSON document fetched from the mirror-status endpoint,
after JSON decoding but before pydantic validation; `version` is
`none` when the field is absent. -/
structure RawStatusDoc where
  version : Option Int := none
  cutoff : Int := 0
  last_check : Int := 0
  num_checks : Int := 0
  urls : List MirrorStatusEntryV3 := []
deriving DecidableEq

/-- `MirrorStatusListV3` after validation. -/
structure MirrorStatusListV3 where
  cutoff : Int
  last_check : Int
  num_checks : Int
  urls : List MirrorStatusEntryV3
  version : Int
deriving DecidableEq

/-- The `check_model` model validator of `MirrorStatusListV3`: accepts
the document only when its `version` field equals 3, otherwise raises. -/
def MirrorStatusListV3.check_model (d : RawStatusDoc) : Except String RawStatusDoc :=
  if d.version = some 3 then .ok d
  else .error "MirrorStatusListV3 only accepts version 3 data"

/-- `MirrorStatusListV3.model_validate_json` after JSON decoding: runs
`check_model`, then builds the validated model. -/
def MirrorStatusListV3.model_validate (d : RawStatusDoc) : Except String MirrorStatusListV3 := do
  let d ← MirrorStatusListV3.check_model d
  match d.version with
  | some v => .ok ⟨d.cutoff, d.last_check, d.num_checks, d.urls, v⟩
  | none => .error "Field required: version"

/-- The filter inside `_parse_remote_mirror_list`: an entry is dropped
when it is inactive, has no `last_sync`, or has an absent score or a
raw (unrounded) score of at least 100. -/
def bad_criteria (e : MirrorStatusEntryV3) : Bool :=
  (e.active = false) ||
  e.last_sync.isNone ||
  (e.score.isNone || (match e.score with
    | some s => decide (100 ≤ s)
    | none => true))

/-- The in-place `mirror.country = 'Worldwide'` mutation applied to
entries whose country is the empty string. -/
def adjust_country (e : MirrorStatusEntryV3) : MirrorStatusEntryV3 :=
  if e.country = "" then { e with country := "Worldwide" } else e

/-- The grouping loop of `_parse_remote_mirror_list`: surviving entries
whose url starts with `http` are appended to the dict entry of their
(possibly adjusted) country. -/
def parse_remote_urls : List MirrorStatusEntryV3 → Mapping → Mapping
  | [], acc => acc
  | e :: rest, acc =>
    if bad_criteria e then parse_remote_urls rest acc
    else
      let e2 := adjust_country e
      if py_startswith e2.url "http" then
        parse_remote_urls rest (setdefault_append acc e2.country e2)
      else
        parse_remote_urls rest acc

/-- `MirrorListHandler._parse_remote_mirror_list`: validate the
document, group surviving entries by country, then sort the groups by
region name ascending. -/
def parse_remote_mirror_list (d : RawStatusDoc) : Except String Mapping := do
  let v ← MirrorStatusListV3.model_validate d
  pure ((parse_remote_urls v.urls []).mergeSort (fun a b => py_str_le a.1 b.1))

/-- The entry built for one `Server = <url>` line of a local
mirror-list file: the stored url drops the `$repo/os/$arch` suffix, the
protocol is recovered with `urlparse`, and the feed-only fields get
fixed defaults. -/
def mk_local_entry (region url : String) : MirrorStatusEntryV3 :=
  { url := py_removesuf url "$repo/os/$arch"
    protocol := py_urlparse_scheme url
    active := true
    country := if region = "" then "Worldwide" else region
    country_code := "WW"
    isos := true
    ipv4 := true
    ipv6 := true
    details := "Locally defined mirror" }

/-- Body of the line loop of
`MirrorListHandler._parse_locale_mirrors`, applied to the stripped
line; the state is the current region name (initially the empty
string) and the mapping built so far.  The two `if` statements of the
loop body run in sequence, as in the source. -/
def locale_step_stripped (st : String × Mapping) (line : String) : String × Mapping :=
  let st1 :=
    if py_startswith line "## " then
      let r := py_strip (py_replace line "## " "")
      (r, setdefault_empty st.2 r)
    else st
  if py_startswith line "Server = " then
    let st2 := if st1.1 = "" then ("Local", setdefault_empty st1.2 "Local") else st1
    let url := py_removepre line "Server = "
    (st2.1, setdefault_append st2.2 st2.1 (mk_local_entry st2.1 url))
  else st1

/-- One iteration of the line loop: `line = line.strip()` followed by
the two prefix tests. -/
def locale_step (st : String × Mapping) (line0 : String) : String × Mapping :=
  locale_step_stripped st (py_strip line0)

/-- `MirrorListHandler._parse_locale_mirrors`. -/
def parse_locale_mirrors (mirrorlist : String) : Mapping :=
  ((py_splitlines mirrorlist).foldl locale_step ("", [])).2

/-- The per-entry sort key used by `get_status_by_region`:
`(mirror.score, mirror.speed)`.  Reading `mirror.speed` may probe the
mirror, so the key is parametrized by the download outcomes of each
entry; the speed used for sorting is the value the `speed` property
returns. -/
def speed_value (oracle : MirrorStatusEntryV3 → Nat → DownloadOutcome)
    (e : MirrorStatusEntryV3) : Rat :=
  (e.speed (oracle e)).1

/-- Lexicographic comparison of the `(score, speed)` sort keys, as
performed by Python tuple comparison inside `sorted`.  Python compares
two scores only when both are numbers or both are `None` (a mixed pair
raises `TypeError`); loaded mappings are always homogeneous in score
presence, and on the mixed pairs this comparator makes the
(unreachable) choice that `None` sorts first. -/
def mirror_sort_le (oracle : MirrorStatusEntryV3 → Nat → DownloadOutcome)
    (a b : MirrorStatusEntryV3) : Bool :=
  match a.score, b.score with
  | some x, some y =>
    if x = y then decide (speed_value oracle a ≤ speed_value oracle b) else decide (x < y)
  | none, none => decide (speed_value oracle a ≤ speed_value oracle b)
  | none, some _ => true
  | some _, none => false

/-- `MirrorListHandler.get_status_by_region`: look the region up in the
mapping (`none` models the `KeyError` on an unknown region) and return
its entries sorted by `(score, speed)`.  Python `sorted` is a stable
ascending sort, modelled by `List.mergeSort`.  The `speed_sort`
argument is accepted and ignored, exactly as in the source. -/
def get_status_by_region (m : Mapping) (region : String) (speed_sort : Bool)
    (oracle : MirrorStatusEntryV3 → Nat → DownloadOutcome) :
    Option (List MirrorStatusEntryV3) :=
  (dict_get m region).map (fun l => l.mergeSort (mirror_sort_le oracle))

/-- Observable events of the mirror loading flow, for the retry and
fallback claims. -/
inductive LoadEvent where
  | fetch_attempt (n : Nat)
  | log_failure (n : Nat)
  | sleep_sec (s : Nat)
  | log_fallback
  | load_local
deriving DecidableEq

/-- One whole attempt of `load_remote_mirrors`: fetch the feed (the
`fetch` argument models `fetch_data_from_url` together with JSON
decoding) and parse it; any exception makes the attempt fail. -/
def remote_attempt (fetch : Nat → Except String RawStatusDoc) (n : Nat) :
    Except String Mapping :=
  match fetch n with
  | .ok d => parse_remote_mirror_list d
  | .error e => .error e

/-- The retry loop of `load_remote_mirrors`: up to three attempts; each
failure is logged and followed by `time.sleep(attempt_nr + 1)`; when
all attempts fail a fallback message is logged and `False` is
returned. -/
def load_remote_go (fetch : Nat → Except String RawStatusDoc) :
    Nat → Nat → Bool × Option Mapping × List LoadEvent
  | 0, _ => (false, none, [.log_fallback])
  | fuel + 1, n =>
    match remote_attempt fetch n with
    | .ok m => (true, some m, [.fetch_attempt n])
    | .error _ =>
      let r := load_remote_go fetch fuel (n + 1)
      (r.1, r.2.1, .fetch_attempt n :: .log_failure n :: .sleep_sec (n + 1) :: r.2.2)

/-- `MirrorListHandler.load_remote_mirrors` (3 attempts). -/
def load_remote_mirrors (fetch : Nat → Except String RawStatusDoc) :
    Bool × Option Mapping × List LoadEvent :=
  load_remote_go fetch 3 0

/-- `MirrorListHandler.load_mirrors`: offline mode loads the local file
only; otherwise the local file is loaded exactly when
`load_remote_mirrors` returns `False`.  `localtext` is the content of
the local mirror-list file. -/
def load_mirrors (offline : Bool) (fetch : Nat → Except String RawStatusDoc)
    (localtext : String) : Option Mapping × List LoadEvent :=
  if offline then (some (parse_locale_mirrors localtext), [.load_local])
  else
    match load_remote_mirrors fetch with
    | (true, m, evs) => (m, evs)
    | (false, _, evs) => (some (parse_locale_mirrors localtext), evs ++ [.load_local])

/-! ### Configuration aggregate (archinstall/lib/models/mirrors.py) -/

/-- `ReflectorConfiguration`, with the field defaults of the source. -/
structure ReflectorConfiguration where
  enabled : Bool := false
  countries : List String := []
  protocols : List ReflectorProtocol := [.HTTPS]
  age : Int := 12
  latest : Int := 20
  sort_order : ReflectorSortOrder := .Rate
  verbose : Bool := true
deriving DecidableEq

/-- `ReflectorConfiguration()` with all defaults. -/
def ReflectorConfiguration.default : ReflectorConfiguration := {}

/-- `ReflectorConfiguration.to_command_args()`. -/
def ReflectorConfiguration.to_command_args (c : ReflectorConfiguration) : List String :=
  ["reflector"] ++
  (if c.verbose then ["--verbose"] else []) ++
  (if c.countries ≠ [] then ["--country", join_comma c.countries] else []) ++
  (if c.protocols ≠ [] then
    ["--protocol", join_comma (c.protocols.map ReflectorProtocol.value)]
  else []) ++
  ["--age", py_str_int c.age, "--latest", py_str_int c.latest, "--sort", c.sort_order.value]

/-- The persisted form of a `ReflectorConfiguration`; each field is
`none` when the key is absent from the document. -/
structure ReflectorDoc where
  enabled : Option Bool := none
  countries : Option (List String) := none
  protocols : Option (List String) := none
  age : Option Int := none
  latest : Option Int := none
  sort_order : Option String := none
  verbose : Option Bool := none
deriving DecidableEq

/-- `ReflectorConfiguration.json()`. -/
def ReflectorConfiguration.json (c : ReflectorConfiguration) : ReflectorDoc :=
  { enabled := some c.enabled
    countries := some c.countries
    protocols := some (c.protocols.map ReflectorProtocol.value)
    age := some c.age
    latest := some c.latest
    sort_order := some c.sort_order.value
    verbose := some c.verbose }

/-- `ReflectorConfiguration.parse_args`: each key falls back to its
default when absent; unknown protocol or sort-order strings raise
(enum constructor `ValueError`). -/
def ReflectorConfiguration.parse_args (d : ReflectorDoc) :
    Except String ReflectorConfiguration := do
  let protocols ← (d.protocols.getD ["https"]).mapM ReflectorProtocol.parse
  let sort ← ReflectorSortOrder.parse (d.sort_order.getD "rate")
  .ok
    { enabled := d.enabled.getD false
      countries := d.countries.getD []
      protocols := protocols
      age := d.age.getD 12
      latest := d.latest.getD 20
      sort_order := sort
      verbose := d.verbose.getD true }

/-- `CustomRepository`. -/
structure CustomRepository where
  name : String
  url : String
  sign_check : SignCheck
  sign_option : SignOption
deriving DecidableEq

/-- The `{name, url, sign_check, sign_option}` dict serialized for one
custom repository. -/
structure RepoDoc where
  name : String
  url : String
  sign_check : String
  sign_option : String
deriving DecidableEq

/-- `CustomRepository.json()`. -/
def CustomRepository.json (c : CustomRepository) : RepoDoc :=
  ⟨c.name, c.url, c.sign_check.value, c.sign_option.value⟩

/-- `CustomRepository.parse_args`: rebuilds each repository, raising on
unknown `sign_check` or `sign_option` values. -/
def CustomRepository.parse_args (l : List RepoDoc) : Except String (List CustomRepository) :=
  l.mapM fun a => do
    let sc ← SignCheck.parse a.sign_check
    let so ← SignOption.parse a.sign_option
    .ok (⟨a.name, a.url, sc, so⟩ : CustomRepository)

/-- `CustomServer`. -/
structure CustomServer where
  url : String
deriving DecidableEq

/-- An element of the `custom_servers` value of a persisted
configuration document.  `MirrorConfiguration.json()` stores the raw
`CustomServer` dataclass objects (`obj`), while
`CustomServer.parse_args` subscripts its elements and therefore needs
dicts (`dict`, whose field is `none` when the `url` key is missing).
Keeping both shapes in the model captures this dynamic-typing
mismatch of the source. -/
inductive ServerVal where
  | obj (s : CustomServer)
  | dict (url : Option String)
deriving DecidableEq

/-- `CustomServer.parse_args`: evaluates `arg['url']` on every element;
on a raw `CustomServer` object this is a `TypeError`, on a dict without
a `url` key a `KeyError`. -/
def CustomServer.parse_args (l : List ServerVal) : Except String (List CustomServer) :=
  l.mapM fun v =>
    match v with
    | .dict (some u) => .ok (⟨u⟩ : CustomServer)
    | .dict none => .error "KeyError: url"
    | .obj _ => .error "TypeError: CustomServer object is not subscriptable"

/-- Modelled from the spec: the `Repository` enum of
`archinstall/lib/models/packages.py` is not part of the sources under
review; the spec describes `optional_repositories` as a list of
repository identifier strings, so a repository is modelled as its
identifier string and the `Repository(r)` constructor as the identity
on it. -/
structure Repository where
  value : String
deriving DecidableEq

/-- The persisted configuration document consumed by
`MirrorConfiguration.parse_args` and produced by
`MirrorConfiguration.json`; every field is `none` when its key is
absent. -/
structure MirrorConfigDoc where
  mirror_regions : Option (List (String × List String)) := none
  custom_servers : Option (List ServerVal) := none
  optional_repositories : Option (List String) := none
  custom_repositories : Option (List RepoDoc) := none
  custom_mirrors : Option (List RepoDoc) := none
  reflector : Option ReflectorDoc := none
deriving DecidableEq

/-- `MirrorConfiguration`. -/
structure MirrorConfiguration where
  mirror_regions : List MirrorRegion := []
  custom_servers : List CustomServer := []
  optional_repositories : List Repository := []
  custom_repositories : List CustomRepository := []
  reflector : ReflectorConfiguration := {}
deriving DecidableEq

/-- Python `dict.update({name: urls})` used by
`MirrorConfiguration.json()` to build the `mirror_regions` dict: an
existing key keeps its position and gets the new value, a new key is
appended. -/
def assoc_update (m : List (String × List String)) (k : String) (v : List String) :
    List (String × List String) :=
  match m with
  | [] => [(k, v)]
  | (k0, v0) :: rest =>
    if k0 = k then (k0, v) :: rest else (k0, v0) :: assoc_update rest k v

/-- `MirrorConfiguration.json()`.  Note that the `custom_servers` value
holds the raw `CustomServer` objects (the source stores
`self.custom_servers` without serializing the elements), while
`custom_repositories` holds serialized dicts. -/
def MirrorConfiguration.json (c : MirrorConfiguration) : MirrorConfigDoc :=
  { mirror_regions :=
      some (c.mirror_regions.foldl (fun acc r => assoc_update acc r.name r.urls) [])
    custom_servers := some (c.custom_servers.map ServerVal.obj)
    optional_repositories := some (c.optional_repositories.map Repository.value)
    custom_repositories := some (c.custom_repositories.map CustomRepository.json)
    custom_mirrors := none
    reflector := some c.reflector.json }

/-- The `if 'optional_repositories' in args:` step of
`MirrorConfiguration.parse_args`: the identifiers parsed into
`Repository` values when the key is present, the empty list
otherwise. -/
def parse_optional_repositories (o : Option (List String)) : List Repository :=
  match o with
  | some l => l.map Repository.mk
  | none => []

/-- The merge step for the `backwards_compatible_repo` argument of
`MirrorConfiguration.parse_args`: append each element not already
present. -/
def merge_optional (acc : List Repository) (bcr : List Repository) : List Repository :=
  bcr.foldl (fun acc r => if r ∈ acc then acc else acc ++ [r]) acc

/-- `MirrorConfiguration.parse_args`.  The legacy `custom_mirrors` key
is read first and the canonical `custom_repositories` key afterwards,
so the canonical key wins when both are present; the
`backwards_compatible_repo` list is merged into
`optional_repositories` without introducing duplicates. -/
def MirrorConfiguration.parse_args (args : MirrorConfigDoc)
    (backwards_compatible_repo : List Repository) :
    Except String MirrorConfiguration :=
  let mr := args.mirror_regions.getD []
  let regions := mr.map (fun p => (⟨p.1, p.2⟩ : MirrorRegion))
  match
    (match args.custom_servers with
      | some l => if l ≠ [] then CustomServer.parse_args l else .ok []
      | none => .ok []) with
  | .error e => .error e
  | .ok servers =>
    match
      (match args.custom_mirrors with
        | some l => CustomRepository.parse_args l
        | none => .ok []) with
    | .error e => .error e
    | .ok repos1 =>
      match
        (match args.custom_repositories with
          | some l => CustomRepository.parse_args l
          | none => .ok repos1) with
      | .error e => .error e
      | .ok repos2 =>
        let optional0 := parse_optional_repositories args.optional_repositories
        let optional1 := merge_optional optional0 backwards_compatible_repo
        match
          (match args.reflector with
            | some d => ReflectorConfiguration.parse_args d
            | none => .ok ReflectorConfiguration.default) with
        | .error e => .error e
        | .ok rf =>
          .ok
            { mirror_regions := regions
              custom_servers := servers
              optional_repositories := optional1
              custom_repositories := repos2
              reflector := rf }

/-! ### Claim theorems -/

/-- C9: validating a remote mirror-status document succeeds exactly
when its `version` field equals 3; for any other value, or when the
field is absent, validation raises, and the remote parse of that fetch
attempt fails. -/
theorem check_model_version_gate :
    ∀ d : RawStatusDoc,
      ((MirrorStatusListV3.model_validate d).isOk = true ↔ d.version = some 3) ∧
      (d.version ≠ some 3 → ∃ msg, parse_remote_mirror_list d = .error msg) := by
  intro d
  constructor
  · by_cases h : d.version = some 3
    · simp [MirrorStatusListV3.model_validate, MirrorStatusListV3.check_model, h,
            Except.bind, bind, Except.isOk, Except.toBool]
    · simp [MirrorStatusListV3.model_validate, MirrorStatusListV3.check_model, h,
            Except.bind, bind, Except.isOk, Except.toBool]
  · intro h
    refine ⟨"MirrorStatusListV3 only accepts version 3 data", ?_⟩
    simp [parse_remote_mirror_list, MirrorStatusListV3.model_validate,
          MirrorStatusListV3.check_model, h, Except.bind, bind]

/-- Witness for C9 at a concrete wrong-version document. -/
theorem check_model_version_gate_witness :
    ((MirrorStatusListV3.model_validate { version := some 2 }).isOk = true ↔
      (some (2 : Int) = some 3)) ∧
    ∃ msg, parse_remote_mirror_list { version := some 2 } = .error msg := by
  have h := check_model_version_gate { version := some 2 }
  exact ⟨h.1, h.2 (by decide)⟩

/-- C10: looking up a region name that is not a key of the loaded
mapping makes `get_status_by_region` raise a `KeyError` (modelled by
`none`); it never returns an empty list for an unknown region, and `none`
is returned exactly for unknown regions. -/
theorem get_status_by_region_unknown_raises :
    ∀ (m : Mapping) (region : String) (b : Bool)
      (oracle : MirrorStatusEntryV3 → Nat → DownloadOutcome),
      dict_get m region = none →
      get_status_by_region m region b oracle = none ∧
      ∀ l, get_status_by_region m region b oracle ≠ some l := by
  intro m region b oracle h
  refine ⟨?_, ?_⟩
  · simp [get_status_by_region, h]
  · intro l hl
    simp [get_status_by_region, h] at hl

/-- Witness for C10 at a concrete mapping and unknown region. -/
theorem get_status_by_region_unknown_raises_witness :
    get_status_by_region [("X", [])] "Y" true (fun _ _ => .transient) = none := by
  exact (get_status_by_region_unknown_raises [("X", [])] "Y" true
    (fun _ _ => .transient) (by decide)).1

/-- The failing input for C1: a configuration with one custom server. -/
def c1_failing_config : MirrorConfiguration :=
  { custom_servers := [⟨"https://x/"⟩] }

/-- C1 (code bug): `MirrorConfiguration.json()` stores the raw
`CustomServer` objects under the `custom_servers` key, and
`parse_args` then evaluates `arg['url']` on each of them, which raises
`TypeError`, so serializing a configuration with a non-empty custom
server list and feeding the result back to `parse_args` raises instead
of reproducing the aggregate. -/
theorem json_parse_args_roundtrip_raises :
    MirrorConfiguration.parse_args (MirrorConfiguration.json c1_failing_config) [] =
      .error "TypeError: CustomServer object is not subscriptable" := by
  decide

/-- Helper: digit characters produced for values below 10 are never a
dash. -/
theorem digitChar_ne_dash : ∀ k : Nat, k < 10 → Nat.digitChar k ≠ '-' := by
  decide

/-- Helper: decimal digit strings contain no dash. -/
theorem nat_digits_fuel_no_dash : ∀ (fuel n : Nat), '-' ∉ nat_digits_fuel fuel n := by
  intro fuel
  induction fuel with
  | zero => intro n; simp [nat_digits_fuel]
  | succ f ih =>
    intro n
    unfold nat_digits_fuel
    by_cases h : n < 10
    · simp only [h, if_true, List.mem_singleton]
      exact fun hh => digitChar_ne_dash n h hh.symm
    · simp only [h, if_false, List.mem_append, List.mem_singleton]
      rintro (hh | hh)
      · exact ih (n / 10) hh
      · exact digitChar_ne_dash (n % 10) (Nat.mod_lt _ (by omega)) hh.symm

/-- Helper: decimal digit strings are non-empty for positive fuel. -/
theorem nat_digits_fuel_ne_nil (f n : Nat) : nat_digits_fuel (f + 1) n ≠ [] := by
  unfold nat_digits_fuel
  by_cases h : n < 10 <;> simp [h]

/-- Helper: `str(i)` never equals a string that starts with two
dashes. -/
theorem py_str_int_ne_dashdash (i : Int) (t : String)
    (ht : t.data.take 2 = ['-', '-']) : py_str_int i ≠ t := by
  intro heq
  have hdata : (py_str_int i).data = t.data := by rw [heq]
  unfold py_str_int at hdata
  by_cases hneg : i < 0
  · simp only [hneg, if_true, String.data_append] at hdata
    rcases hd : nat_digits_fuel (i.natAbs + 1) i.natAbs with _ | ⟨c, cs⟩
    · exact nat_digits_fuel_ne_nil i.natAbs i.natAbs hd
    · have : ("-").data ++ (nat_str i.natAbs).data = '-' :: c :: cs := by
        simp [nat_str, hd]
      rw [this] at hdata
      have : t.data.take 2 = ['-', c] := by rw [← hdata]; rfl
      rw [ht] at this
      have hc : c = '-' := by injection this with h1 h2; injection h2 with h3 _; exact h3.symm
      have : '-' ∈ nat_digits_fuel (i.natAbs + 1) i.natAbs := by
        rw [hd]; exact hc ▸ List.mem_cons_self c cs
      exact nat_digits_fuel_no_dash _ _ this
  · simp only [hneg, if_false] at hdata
    rcases hd : nat_digits_fuel (i.natAbs + 1) i.natAbs with _ | ⟨c, cs⟩
    · exact nat_digits_fuel_ne_nil i.natAbs i.natAbs hd
    · have hts : t.data = c :: cs := by
        rw [← hdata]; simp [nat_str, hd]
      have : t.data.take 2 = c :: List.take 1 cs := by rw [hts]; rfl
      rw [ht] at this
      have hc : c = '-' := by injection this with h1 _; exact h1.symm
      have : '-' ∈ nat_digits_fuel (i.natAbs + 1) i.natAbs := by
        rw [hd]; exact hc ▸ List.mem_cons_self c cs
      exact nat_digits_fuel_no_dash _ _ this

/-- Helper: a comma-join of dash-free strings is dash-free. -/
theorem join_comma_no_dash :
    ∀ l : List String, (∀ x ∈ l, '-' ∉ x.data) → '-' ∉ (join_comma l).data := by
  intro l
  induction l with
  | nil => intro _; simp [join_comma]
  | cons x rest ih =>
    intro h
    cases rest with
    | nil =>
      simpa [join_comma] using h x (List.mem_cons_self x [])
    | cons y ys =>
      simp only [join_comma, String.data_append, List.mem_append]
      rintro ((hx | hcomma) | hrest)
      · exact h x (List.mem_cons_self _ _) hx
      · simp at hcomma
      · exact ih (fun z hz => h z (List.mem_cons_of_mem _ hz)) hrest

/-- Helper: reflector protocol enum values are dash-free. -/
theorem protocol_value_no_dash (p : ReflectorProtocol) : '-' ∉ p.value.data := by
  cases p <;> decide

/-- Helper: a dash-free string differs from any string containing a
dash. -/
theorem ne_of_no_dash {s t : String} (hs : '-' ∉ s.data) (ht : '-' ∈ t.data) :
    s ≠ t := by
  intro h
  exact hs (h ▸ ht)

/-- Helper: the comma-join of the protocol values differs from any
dashed option token. -/
theorem proto_join_ne (l : List ReflectorProtocol) (t : String) (ht : '-' ∈ t.data) :
    join_comma (l.map ReflectorProtocol.value) ≠ t := by
  refine ne_of_no_dash ?_ ht
  refine join_comma_no_dash _ ?_
  intro x hx
  rcases List.mem_map.mp hx with ⟨p, _, rfl⟩
  exact protocol_value_no_dash p

/-- Helper: sort-order enum values are dash-free, hence differ from
dashed option tokens. -/
theorem sort_value_ne (o : ReflectorSortOrder) (t : String) (ht : '-' ∈ t.data) :
    o.value ≠ t := by
  refine ne_of_no_dash ?_ ht
  cases o <;> decide

/-- C7 (amended): `to_command_args` always emits `--age`, `--latest`
and `--sort`, and it emits `--country` exactly when the countries list
is non-empty — both unconditionally; it emits `--protocol` exactly
when the protocols list is non-empty and `--verbose` exactly when the
verbose flag is set, provided in each case that the comma-joined
country list is not itself that literal token (a country name can
inject such a token as the value of the `--country` option, see the
counterexample). -/
theorem to_command_args_option_flags :
    ∀ c : ReflectorConfiguration,
      ("--age" ∈ c.to_command_args ∧ "--latest" ∈ c.to_command_args ∧
        "--sort" ∈ c.to_command_args) ∧
      ("--country" ∈ c.to_command_args ↔ c.countries ≠ []) ∧
      (join_comma c.countries ≠ "--protocol" →
        ("--protocol" ∈ c.to_command_args ↔ c.protocols ≠ [])) ∧
      (join_comma c.countries ≠ "--verbose" →
        ("--verbose" ∈ c.to_command_args ↔ c.verbose = true)) := by
  intro c
  have a1 : py_str_int c.age ≠ "--country" := py_str_int_ne_dashdash _ _ (by decide)
  have a2 : py_str_int c.age ≠ "--protocol" := py_str_int_ne_dashdash _ _ (by decide)
  have a3 : py_str_int c.age ≠ "--verbose" := py_str_int_ne_dashdash _ _ (by decide)
  have l1 : py_str_int c.latest ≠ "--country" := py_str_int_ne_dashdash _ _ (by decide)
  have l2 : py_str_int c.latest ≠ "--protocol" := py_str_int_ne_dashdash _ _ (by decide)
  have l3 : py_str_int c.latest ≠ "--verbose" := py_str_int_ne_dashdash _ _ (by decide)
  have p1 : join_comma (c.protocols.map ReflectorProtocol.value) ≠ "--country" :=
    proto_join_ne _ _ (by decide)
  have p3 : join_comma (c.protocols.map ReflectorProtocol.value) ≠ "--verbose" :=
    proto_join_ne _ _ (by decide)
  have s1 : c.sort_order.value ≠ "--country" := sort_value_ne _ _ (by decide)
  have s2 : c.sort_order.value ≠ "--protocol" := sort_value_ne _ _ (by decide)
  have s3 : c.sort_order.value ≠ "--verbose" := sort_value_ne _ _ (by decide)
  refine ⟨?_, ?_, ?_, ?_⟩
  · unfold ReflectorConfiguration.to_command_args
    by_cases hv : c.verbose <;> by_cases hc : c.countries = [] <;>
      by_cases hp : c.protocols = [] <;> simp [hv, hc, hp]
  · unfold ReflectorConfiguration.to_command_args
    by_cases hv : c.verbose <;> by_cases hc : c.countries = [] <;>
      by_cases hp : c.protocols = [] <;>
        simp [hv, hc, hp, a1.symm, l1.symm, p1.symm, s1.symm]
  · intro h2
    unfold ReflectorConfiguration.to_command_args
    by_cases hv : c.verbose <;> by_cases hc : c.countries = [] <;>
      by_cases hp : c.protocols = [] <;>
        simp [hv, hc, hp, a2.symm, l2.symm, s2.symm, h2.symm]
  · intro h1
    unfold ReflectorConfiguration.to_command_args
    by_cases hv : c.verbose <;> by_cases hc : c.countries = [] <;>
      by_cases hp : c.protocols = [] <;>
        simp [hv, hc, hp, a3.symm, l3.symm, p3.symm, s3.symm, h1.symm]

/-- The configuration refuting C7 as stated: a country literally named
`--verbose` while the verbose flag is off. -/
def c7_injection_config : ReflectorConfiguration :=
  { countries := ["--verbose"], verbose := false }

/-- Counterexample for C7 as stated: with a country named `--verbose`
and the verbose flag off, the argument list contains the string
`--verbose` (as the value of the `--country` option), so membership of
`--verbose` is not equivalent to the verbose flag. -/
theorem to_command_args_verbose_injection :
    ¬("--verbose" ∈ c7_injection_config.to_command_args ↔
        c7_injection_config.verbose = true) := by
  decide

/-- Witness for C7 at a concrete benign configuration. -/
theorem to_command_args_option_flags_witness :
    ("--age" ∈ (⟨true, ["Sweden"], [.HTTPS], 12, 20, .Rate, true⟩ :
        ReflectorConfiguration).to_command_args ∧
      "--latest" ∈ (⟨true, ["Sweden"], [.HTTPS], 12, 20, .Rate, true⟩ :
        ReflectorConfiguration).to_command_args ∧
      "--sort" ∈ (⟨true, ["Sweden"], [.HTTPS], 12, 20, .Rate, true⟩ :
        ReflectorConfiguration).to_command_args) ∧
    ("--country" ∈ (⟨true, ["Sweden"], [.HTTPS], 12, 20, .Rate, true⟩ :
        ReflectorConfiguration).to_command_args ↔ (["Sweden"] : List String) ≠ []) ∧
    ("--protocol" ∈ (⟨true, ["Sweden"], [.HTTPS], 12, 20, .Rate, true⟩ :
        ReflectorConfiguration).to_command_args ↔
      ([.HTTPS] : List ReflectorProtocol) ≠ []) ∧
    ("--verbose" ∈ (⟨true, ["Sweden"], [.HTTPS], 12, 20, .Rate, true⟩ :
        ReflectorConfiguration).to_command_args ↔ true = true) := by
  have h := to_command_args_option_flags ⟨true, ["Sweden"], [.HTTPS], 12, 20, .Rate, true⟩
  exact ⟨h.1, h.2.1, h.2.2.1 (by decide), h.2.2.2 (by decide)⟩

/-- Helper: the retry loop never performs more attempts than its
budget. -/
theorem speed_attempts_le (outcomes : Nat → DownloadOutcome) :
    ∀ fuel idx, (speed_attempts outcomes fuel idx).2 ≤ fuel := by
  intro fuel
  induction fuel with
  | zero => intro idx; simp [speed_attempts]
  | succ f ih =>
    intro idx
    unfold speed_attempts
    cases outcomes idx with
    | ok v => simp
    | url_error => simp
    | other_error => simp
    | transient => simpa using ih (idx + 1)

/-- C5: reading the `speed` property of a freshly constructed mirror
entry performs at most 3 download attempts; a permanent error
(`URLError` or a generic exception) reached after any run of transient
errors sets the speed to 0 and stops retrying; three consecutive
transient errors finalize the speed to 0 (never leaving it unset); a
cached speed is returned as-is with no download attempt; and after any
read the value is cached, so subsequent reads never re-probe. -/
theorem speed_retry_policy :
    ∀ (e : MirrorStatusEntryV3) (outcomes : Nat → DownloadOutcome),
      (∀ v, e.speed_cache = some v → e.speed outcomes = (v, e, 0)) ∧
      ((e.speed outcomes).2.1.speed_cache = some (e.speed outcomes).1) ∧
      (e.speed_cache = none → e.speedtest_retries = none →
        ((e.speed outcomes).2.2 ≤ 3 ∧
          (∀ k, k < 3 → (∀ j, j < k → outcomes j = .transient) →
            (outcomes k = .url_error ∨ outcomes k = .other_error) →
            (e.speed outcomes).1 = 0 ∧ (e.speed outcomes).2.2 = k + 1) ∧
          ((∀ j, j < 3 → outcomes j = .transient) →
            (e.speed outcomes).1 = 0 ∧ (e.speed outcomes).2.2 = 3))) := by
  intro e outcomes
  refine ⟨?_, ?_, ?_⟩
  · intro v hv
    simp [MirrorStatusEntryV3.speed, hv]
  · rcases hc : e.speed_cache with _ | v
    · simp [MirrorStatusEntryV3.speed, hc]
    · simp [MirrorStatusEntryV3.speed, hc]
  · intro h1 h2
    have hn : normalize_retries e.speedtest_retries = 3 := by
      simp [normalize_retries, h2]
    refine ⟨?_, ?_, ?_⟩
    · simp only [MirrorStatusEntryV3.speed, h1, hn]
      simpa using speed_attempts_le outcomes 3 0
    · intro k hk hprev hperm
      interval_cases k
      · rcases hperm with h | h <;>
          simp [MirrorStatusEntryV3.speed, h1, hn, speed_attempts, h]
      · have o0 : outcomes 0 = .transient := hprev 0 (by omega)
        rcases hperm with h | h <;>
          simp [MirrorStatusEntryV3.speed, h1, hn, speed_attempts, o0, h]
      · have o0 : outcomes 0 = .transient := hprev 0 (by omega)
        have o1 : outcomes 1 = .transient := hprev 1 (by omega)
        rcases hperm with h | h <;>
          simp [MirrorStatusEntryV3.speed, h1, hn, speed_attempts, o0, o1, h]
    · intro htr
      simp [MirrorStatusEntryV3.speed, h1, hn, speed_attempts,
            htr 0 (by omega), htr 1 (by omega), htr 2 (by omega)]

/-- The entry used by the C5 witness: fresh probe state. -/
def c5_fresh_entry : MirrorStatusEntryV3 :=
  { url := "https://m/", protocol := "https", active := true, country := "X",
    country_code := "XX", isos := true, ipv4 := true, ipv6 := true, details := "" }

/-- Witness for C5: three consecutive transient errors finalize the
speed of a fresh entry to 0 after exactly 3 attempts, and the result
is cached. -/
theorem speed_retry_policy_witness :
    (c5_fresh_entry.speed (fun _ => .transient)).1 = 0 ∧
    (c5_fresh_entry.speed (fun _ => .transient)).2.2 = 3 ∧
    (c5_fresh_entry.speed (fun _ => .transient)).2.1.speed_cache =
      some (c5_fresh_entry.speed (fun _ => .transient)).1 := by
  have h := speed_retry_policy c5_fresh_entry (fun _ => .transient)
  have h3 := (h.2.2 rfl rfl).2.2 (fun j _ => rfl)
  exact ⟨h3.1, h3.2, h.2.1⟩

/-- C4: when not offline, the loader makes up to 3 remote attempts;
every failed attempt is logged and followed by a sleep of
`attempt_nr + 1` seconds (1s, 2s, 3s); every sleep belongs to a failed
attempt; and the local mirror-list file is loaded exactly once iff all
3 attempts fail (otherwise it is not loaded at all). -/
theorem load_retry_backoff :
    ∀ (fetch : Nat → Except String RawStatusDoc) (localtext : String),
      ((load_mirrors false fetch localtext).2.count LoadEvent.load_local = 1 ↔
        ∀ n, n < 3 → (remote_attempt fetch n).isOk = false) ∧
      ((load_mirrors false fetch localtext).2.count LoadEvent.load_local ≤ 1) ∧
      (∀ n, LoadEvent.fetch_attempt n ∈ (load_mirrors false fetch localtext).2 → n < 3) ∧
      (∀ n, LoadEvent.fetch_attempt n ∈ (load_mirrors false fetch localtext).2 →
        (remote_attempt fetch n).isOk = false →
        LoadEvent.log_failure n ∈ (load_mirrors false fetch localtext).2 ∧
        LoadEvent.sleep_sec (n + 1) ∈ (load_mirrors false fetch localtext).2) ∧
      (∀ s, LoadEvent.sleep_sec s ∈ (load_mirrors false fetch localtext).2 →
        ∃ n, n < 3 ∧ s = n + 1 ∧ (remote_attempt fetch n).isOk = false) := by
  intro fetch localtext
  cases h0 : remote_attempt fetch 0 with
  | ok m0 =>
    have hev : (load_mirrors false fetch localtext).2 = [.fetch_attempt 0] := by
      simp [load_mirrors, load_remote_mirrors, load_remote_go, h0]
    rw [hev]
    refine ⟨?_, by decide, ?_, ?_, ?_⟩
    · constructor
      · intro hcount; exact absurd hcount (by decide)
      · intro hall
        have := hall 0 (by omega)
        rw [h0] at this
        simp [Except.isOk, Except.toBool] at this
    · intro n hn
      simp only [List.mem_singleton, LoadEvent.fetch_attempt.injEq] at hn
      omega
    · intro n hn hfail
      simp only [List.mem_singleton, LoadEvent.fetch_attempt.injEq] at hn
      subst hn
      rw [h0] at hfail
      simp [Except.isOk, Except.toBool] at hfail
    · intro s hs
      simp at hs
  | error e0 =>
    have hfail0 : (remote_attempt fetch 0).isOk = false := by
      rw [h0]; rfl
    cases h1 : remote_attempt fetch 1 with
    | ok m1 =>
      have hev : (load_mirrors false fetch localtext).2 =
          [.fetch_attempt 0, .log_failure 0, .sleep_sec 1, .fetch_attempt 1] := by
        simp [load_mirrors, load_remote_mirrors, load_remote_go, h0, h1]
      rw [hev]
      refine ⟨?_, by decide, ?_, ?_, ?_⟩
      · constructor
        · intro hcount; exact absurd hcount (by decide)
        · intro hall
          have := hall 1 (by omega)
          rw [h1] at this
          simp [Except.isOk, Except.toBool] at this
      · intro n hn
        simp only [List.mem_cons, List.mem_singleton] at hn
        rcases hn with h | h | h | h <;> simp_all
      · intro n hn hfail
        simp only [List.mem_cons, List.mem_singleton] at hn
        rcases hn with h | h | h | h <;> try simp_all
        simp [Except.isOk, Except.toBool] at hfail
      · intro s hs
        simp only [List.mem_cons, List.mem_singleton] at hs
        rcases hs with h | h | h | h <;> try simp_all
        exact ⟨0, by omega, by simp_all, by rw [h0]; rfl⟩
    | error e1 =>
      have hfail1 : (remote_attempt fetch 1).isOk = false := by
        rw [h1]; rfl
      cases h2 : remote_attempt fetch 2 with
      | ok m2 =>
        have hev : (load_mirrors false fetch localtext).2 =
            [.fetch_attempt 0, .log_failure 0, .sleep_sec 1,
             .fetch_attempt 1, .log_failure 1, .sleep_sec 2, .fetch_attempt 2] := by
          simp [load_mirrors, load_remote_mirrors, load_remote_go, h0, h1, h2]
        rw [hev]
        refine ⟨?_, by decide, ?_, ?_, ?_⟩
        · constructor
          · intro hcount; exact absurd hcount (by decide)
          · intro hall
            have := hall 2 (by omega)
            rw [h2] at this
            simp [Except.isOk, Except.toBool] at this
        · intro n hn
          simp only [List.mem_cons, List.mem_singleton] at hn
          rcases hn with h | h | h | h | h | h | h <;> simp_all
        · intro n hn hfail
          simp only [List.mem_cons, List.mem_singleton] at hn
          rcases hn with h | h | h | h | h | h | h <;> try simp_all
          simp [Except.isOk, Except.toBool] at hfail
        · intro s hs
          simp only [List.mem_cons, List.mem_singleton] at hs
          rcases hs with h | h | h | h | h | h | h <;> try simp_all
          · exact ⟨0, by omega, by simp_all, by rw [h0]; rfl⟩
          · exact ⟨1, by omega, by simp_all, by rw [h1]; rfl⟩
      | error e2 =>
        have hfail2 : (remote_attempt fetch 2).isOk = false := by
          rw [h2]; rfl
        have hev : (load_mirrors false fetch localtext).2 =
            [.fetch_attempt 0, .log_failure 0, .sleep_sec 1,
             .fetch_attempt 1, .log_failure 1, .sleep_sec 2,
             .fetch_attempt 2, .log_failure 2, .sleep_sec 3,
             .log_fallback, .load_local] := by
          simp [load_mirrors, load_remote_mirrors, load_remote_go, h0, h1, h2]
        rw [hev]
        refine ⟨?_, by decide, ?_, ?_, ?_⟩
        · constructor
          · intro _ n hn
            interval_cases n
            · exact hfail0
            · exact hfail1
            · exact hfail2
          · intro _; decide
        · intro n hn
          simp only [List.mem_cons, List.mem_singleton] at hn
          rcases hn with h | h | h | h | h | h | h | h | h | h | h <;> simp_all
        · intro n hn _
          simp only [List.mem_cons, List.mem_singleton] at hn
          rcases hn with h | h | h | h | h | h | h | h | h | h | h <;> simp_all
        · intro s hs
          simp only [List.mem_cons, List.mem_singleton] at hs
          rcases hs with h | h | h | h | h | h | h | h | h | h | h <;> try simp_all
          · exact ⟨0, by omega, by simp_all, by rw [h0]; rfl⟩
          · exact ⟨1, by omega, by simp_all, by rw [h1]; rfl⟩
          · exact ⟨2, by omega, by simp_all, by rw [h2]; rfl⟩

/-- Witness for C4: with a fetch that always fails, the local file is
loaded exactly once; with a fetch that succeeds immediately, the sleep
event never occurs. -/
theorem load_retry_backoff_witness :
    (load_mirrors false (fun _ => .error "down") "").2.count LoadEvent.load_local = 1 := by
  exact (load_retry_backoff (fun _ => .error "down") "").1.mpr (fun n _ => rfl)

/-- Helper: an `Except` bind yields `ok` exactly when both stages do. -/
theorem except_bind_ok {ε α β : Type} {m : Except ε α} {k : α → Except ε β} {b : β} :
    (m >>= k) = .ok b ↔ ∃ a, m = .ok a ∧ k a = .ok b := by
  cases m with
  | ok a => simp [bind, Except.bind]
  | error e => simp [bind, Except.bind]

/-- Helper: membership in the merged optional-repository list. -/
theorem merge_optional_mem :
    ∀ (bcr acc : List Repository) (r : Repository),
      r ∈ merge_optional acc bcr ↔ r ∈ acc ∨ r ∈ bcr := by
  intro bcr
  induction bcr with
  | nil => intro acc r; simp [merge_optional]
  | cons b bs ih =>
    intro acc r
    have step :
        merge_optional acc (b :: bs) =
          merge_optional (if b ∈ acc then acc else acc ++ [b]) bs := rfl
    rw [step, ih]
    by_cases hb : b ∈ acc
    · simp only [hb, if_true, List.mem_cons]
      constructor
      · rintro (h | h)
        · exact Or.inl h
        · exact Or.inr (Or.inr h)
      · rintro (h | h | h)
        · exact Or.inl h
        · exact Or.inl (h ▸ hb)
        · exact Or.inr h
    · simp only [hb, if_false, List.mem_append, List.mem_singleton, List.mem_cons]
      tauto

/-- Helper: the merge step introduces no duplicates. -/
theorem merge_optional_nodup :
    ∀ (bcr acc : List Repository), acc.Nodup → (merge_optional acc bcr).Nodup := by
  intro bcr
  induction bcr with
  | nil => intro acc h; exact h
  | cons b bs ih =>
    intro acc h
    have step :
        merge_optional acc (b :: bs) =
          merge_optional (if b ∈ acc then acc else acc ++ [b]) bs := rfl
    rw [step]
    by_cases hb : b ∈ acc
    · simpa [hb] using ih acc h
    · simp only [hb, if_false]
      refine ih _ ?_
      simp [List.nodup_append, h, hb]

/-- Helper: the parsed optional-repository list before the merge step. -/
theorem opt0_eq (o : Option (List String)) :
    parse_optional_repositories o = (o.getD []).map Repository.mk := by
  cases o <;> rfl

/-- C6: when both the legacy `custom_mirrors` key and the canonical
`custom_repositories` key are present, the canonical key determines
the parsed custom repositories; and the caller-supplied
backwards-compatible repository list is merged into
`optional_repositories` exactly where not already present, so no
duplicates are introduced. -/
theorem parse_args_precedence_and_merge :
    ∀ (args : MirrorConfigDoc) (bcr : List Repository) (cfg : MirrorConfiguration),
      MirrorConfiguration.parse_args args bcr = .ok cfg →
      (∀ cm cr l, args.custom_mirrors = some cm → args.custom_repositories = some cr →
        CustomRepository.parse_args cr = .ok l → cfg.custom_repositories = l) ∧
      (∀ r, r ∈ cfg.optional_repositories ↔
        r ∈ (args.optional_repositories.getD []).map Repository.mk ∨ r ∈ bcr) ∧
      (((args.optional_repositories.getD []).map Repository.mk).Nodup →
        cfg.optional_repositories.Nodup) := by
  intro args bcr cfg h
  unfold MirrorConfiguration.parse_args at h
  have hopt : cfg.optional_repositories =
      merge_optional ((args.optional_repositories.getD []).map Repository.mk) bcr := by
    split at h
    · exact absurd h (by simp)
    · split at h
      · exact absurd h (by simp)
      · split at h
        · exact absurd h (by simp)
        · split at h
          · exact absurd h (by simp)
          · have hcfg := Except.ok.inj h
            rw [← hcfg]
            simp [opt0_eq]
  refine ⟨?_, ?_, ?_⟩
  · intro cm cr l hcm hcr hl
    rw [hcr] at h
    simp only [hl] at h
    split at h
    · exact absurd h (by simp)
    · split at h
      · exact absurd h (by simp)
      · split at h
        · exact absurd h (by simp)
        · have hcfg := Except.ok.inj h
          rw [← hcfg]
  · intro r
    rw [hopt]
    exact merge_optional_mem bcr _ r
  · intro hnd
    rw [hopt]
    exact merge_optional_nodup bcr _ hnd

/-- A concrete document with both repository keys, for the C6
witness. -/
def c6_args : MirrorConfigDoc :=
  { custom_mirrors := some [⟨"m", "u", "Never", "TrustAll"⟩],
    custom_repositories := some [⟨"extra", "https://x/", "Required", "TrustAll"⟩],
    optional_repositories := some ["multilib"] }

/-- The configuration `parse_args` produces for `c6_args` with the
backwards-compatible list `[multilib, testing]`. -/
def c6_cfg : MirrorConfiguration :=
  { optional_repositories := [⟨"multilib"⟩, ⟨"testing"⟩],
    custom_repositories := [⟨"extra", "https://x/", .Required, .TrustAll⟩] }

/-- Witness for C6: the canonical key wins over the legacy key and the
merged optional-repository list gains `testing` without duplicating
`multilib`. -/
theorem parse_args_precedence_and_merge_witness :
    c6_cfg.custom_repositories = [⟨"extra", "https://x/", .Required, .TrustAll⟩] ∧
    (Repository.mk "testing" ∈ c6_cfg.optional_repositories ↔
      Repository.mk "testing" ∈ (c6_args.optional_repositories.getD []).map Repository.mk ∨
        Repository.mk "testing" ∈ [Repository.mk "multilib", Repository.mk "testing"]) ∧
    c6_cfg.optional_repositories.Nodup := by
  have h := parse_args_precedence_and_merge c6_args
    [Repository.mk "multilib", Repository.mk "testing"] c6_cfg (by decide)
  exact ⟨h.1 _ _ _ rfl rfl (by decide), h.2.1 _, h.2.2 (by decide)⟩

/-- Helper: unpacking of the bad-criteria filter. -/
theorem bad_criteria_false_iff (x : MirrorStatusEntryV3) :
    bad_criteria x = false ↔
      x.active = true ∧ x.last_sync.isSome = true ∧ ∃ s, x.score = some s ∧ s < 100 := by
  unfold bad_criteria
  rcases hs : x.score with _ | s <;> rcases hl : x.last_sync with _ | t <;>
    cases ha : x.active <;> simp [hs, hl, ha]

/-- Helper: the country adjustment only changes the country field. -/
theorem adjust_country_fields (x : MirrorStatusEntryV3) :
    (adjust_country x).active = x.active ∧
    (adjust_country x).last_sync = x.last_sync ∧
    (adjust_country x).score = x.score ∧
    (adjust_country x).url = x.url ∧
    (adjust_country x).country = (if x.country = "" then "Worldwide" else x.country) := by
  unfold adjust_country
  split <;> simp_all

/-- Helper: membership after a `setdefault(k, []).append(x)` step. -/
theorem mem_setdefault_append :
    ∀ (m : Mapping) (k : String) (x : MirrorStatusEntryV3) (region : String)
      (es : List MirrorStatusEntryV3) (e : MirrorStatusEntryV3),
      (region, es) ∈ setdefault_append m k x → e ∈ es →
      (∃ es0, (region, es0) ∈ m ∧ e ∈ es0) ∨ (region = k ∧ e = x) := by
  intro m
  induction m with
  | nil =>
    intro k x region es e hmem he
    simp only [setdefault_append, List.mem_singleton, Prod.mk.injEq] at hmem
    rcases hmem with ⟨h1, h2⟩
    subst h1; subst h2
    right
    exact ⟨rfl, by simpa using he⟩
  | cons p rest ih =>
    intro k x region es e hmem he
    rcases p with ⟨k0, v⟩
    simp only [setdefault_append] at hmem
    by_cases hk : k0 = k
    · rw [if_pos hk] at hmem
      rcases List.mem_cons.mp hmem with h | h
      · rcases Prod.mk.injEq .. ▸ h with ⟨h1, h2⟩
        subst h1; subst h2
        rcases List.mem_append.mp he with hv | hx
        · exact Or.inl ⟨v, List.mem_cons_self _ _, hv⟩
        · exact Or.inr ⟨hk, by simpa using hx⟩
      · exact Or.inl ⟨es, List.mem_cons_of_mem _ h, he⟩
    · rw [if_neg hk] at hmem
      rcases List.mem_cons.mp hmem with h | h
      · rcases Prod.mk.injEq .. ▸ h with ⟨h1, h2⟩
        subst h1; subst h2
        exact Or.inl ⟨_, List.mem_cons_self _ _, he⟩
      · rcases ih k x region es e h he with ⟨es0, hmem0, he0⟩ | hr
        · exact Or.inl ⟨es0, List.mem_cons_of_mem _ hmem0, he0⟩
        · exact Or.inr hr

/-- Helper: every entry reachable in the grouping loop either comes
from the accumulator or is a surviving, country-adjusted feed entry
stored under its country. -/
theorem mem_parse_remote_urls :
    ∀ (urls : List MirrorStatusEntryV3) (acc : Mapping) (region : String)
      (es : List MirrorStatusEntryV3) (e : MirrorStatusEntryV3),
      (region, es) ∈ parse_remote_urls urls acc → e ∈ es →
      (∃ es0, (region, es0) ∈ acc ∧ e ∈ es0) ∨
      (∃ orig, orig ∈ urls ∧ bad_criteria orig = false ∧
        py_startswith (adjust_country orig).url "http" = true ∧
        e = adjust_country orig ∧ region = (adjust_country orig).country) := by
  intro urls
  induction urls with
  | nil =>
    intro acc region es e hmem he
    exact Or.inl ⟨es, by simpa [parse_remote_urls] using hmem, he⟩
  | cons u rest ih =>
    intro acc region es e hmem he
    unfold parse_remote_urls at hmem
    by_cases hbad : bad_criteria u
    · rw [if_pos hbad] at hmem
      rcases ih _ _ _ _ hmem he with hl | ⟨orig, ho, h1, h2, h3, h4⟩
      · exact Or.inl hl
      · exact Or.inr ⟨orig, List.mem_cons_of_mem _ ho, h1, h2, h3, h4⟩
    · rw [if_neg hbad] at hmem
      by_cases hurl : py_startswith (adjust_country u).url "http"
      · rw [if_pos hurl] at hmem
        rcases ih _ _ _ _ hmem he with ⟨es0, hm0, he0⟩ | ⟨orig, ho, h1, h2, h3, h4⟩
        · rcases mem_setdefault_append _ _ _ _ _ _ hm0 he0 with hl | ⟨hreg, hex⟩
          · exact Or.inl hl
          · exact Or.inr ⟨u, List.mem_cons_self _ _, by simpa using hbad, hurl, hex, hreg⟩
        · exact Or.inr ⟨orig, List.mem_cons_of_mem _ ho, h1, h2, h3, h4⟩
      · rw [if_neg hurl] at hmem
        rcases ih _ _ _ _ hmem he with hl | ⟨orig, ho, h1, h2, h3, h4⟩
        · exact Or.inl hl
        · exact Or.inr ⟨orig, List.mem_cons_of_mem _ ho, h1, h2, h3, h4⟩

/-- Helper: a successful remote parse determines the mapping and
preserves the url list of the document. -/
theorem parse_remote_mirror_list_ok :
    ∀ (d : RawStatusDoc) (m : Mapping), parse_remote_mirror_list d = .ok m →
      m = (parse_remote_urls d.urls []).mergeSort (fun a b => py_str_le a.1 b.1) := by
  intro d m hok
  unfold parse_remote_mirror_list at hok
  cases hv : MirrorStatusListV3.model_validate d with
  | error err =>
    rw [hv] at hok
    exact absurd hok (by simp [bind, Except.bind])
  | ok v =>
    rw [hv] at hok
    simp only [bind, Except.bind, pure, Except.pure, Except.ok.injEq] at hok
    have hurls : v.urls = d.urls := by
      unfold MirrorStatusListV3.model_validate MirrorStatusListV3.check_model at hv
      by_cases h3 : d.version = some 3
      · rw [if_pos h3] at hv
        simp only [bind, Except.bind] at hv
        rw [h3] at hv
        have := Except.ok.inj hv
        rw [← this]
      · rw [if_neg h3] at hv
        exact absurd hv (by simp [bind, Except.bind])
    rw [← hok, hurls]

/-- Helper: full characterization of the entries of a successfully
parsed remote feed; shared by the filter and the sorting claims. -/
theorem remote_mapping_entry_props :
    ∀ (d : RawStatusDoc) (m : Mapping), parse_remote_mirror_list d = .ok m →
      ∀ region es e, (region, es) ∈ m → e ∈ es →
        e.active = true ∧ e.last_sync.isSome = true ∧
        (∃ s, e.score = some s ∧ s < 100) ∧
        py_startswith e.url "http" = true ∧
        (∃ orig, orig ∈ d.urls ∧ e = adjust_country orig ∧
          region = (if orig.country = "" then "Worldwide" else orig.country)) := by
  intro d m hok region es e hmem he
  rw [parse_remote_mirror_list_ok d m hok] at hmem
  rw [List.mem_mergeSort] at hmem
  rcases mem_parse_remote_urls _ _ _ _ _ hmem he with ⟨es0, h0, _⟩ | hsur
  · simp at h0
  · rcases hsur with ⟨orig, ho, hbadf, hurl, hee, hreg⟩
    obtain ⟨hfa, hfl, hfs, hfu, hfc⟩ := adjust_country_fields orig
    obtain ⟨ha, hl, hs⟩ := (bad_criteria_false_iff orig).mp hbadf
    refine ⟨?_, ?_, ?_, ?_, orig, ho, hee, ?_⟩
    · rw [hee, hfa]; exact ha
    · rw [hee, hfl]; simpa using hl
    · rw [hee, hfs]; exact hs
    · rw [hee]; exact hurl
    · rw [hreg, hfc]

/-- C2 (amended): in a successfully parsed version-3 feed, every entry
of the resulting region map is active, has a sync timestamp, has a raw
(unrounded) score below 100 (the `validate_score` rounding validator
is never registered, so an entry whose raw score rounds to 100 can
survive — see the counterexample), and has a url that starts with the
literal prefix `http` (the code tests `url.startswith('http')`, not
the parsed scheme, so a scheme such as `httpx` also survives — see the
counterexample); each such entry is a feed entry (with empty country
replaced by the sentinel `Worldwide`) grouped under its resulting
country. -/
theorem remote_parse_filter :
    ∀ (d : RawStatusDoc) (m : Mapping), parse_remote_mirror_list d = .ok m →
      ∀ region es e, (region, es) ∈ m → e ∈ es →
        e.active = true ∧ e.last_sync.isSome = true ∧
        (∃ s, e.score = some s ∧ s < 100) ∧
        py_startswith e.url "http" = true ∧
        (∃ orig, orig ∈ d.urls ∧ e = adjust_country orig ∧
          region = (if orig.country = "" then "Worldwide" else orig.country)) :=
  remote_mapping_entry_props

/-- The feed entry refuting the scheme part of C2 as stated: its url
starts with `http` but its scheme is `httpx`. -/
def httpx_entry : MirrorStatusEntryV3 :=
  { url := "httpx://evil/", protocol := "httpx", active := true, country := "X",
    country_code := "XX", isos := true, ipv4 := true, ipv6 := true, details := "",
    last_sync := some 0, score := some 0 }

/-- Helper: the concrete single-entry version-3 document containing
`httpx_entry` parses to the one-region map holding it. -/
theorem httpx_doc_parses :
    parse_remote_mirror_list { version := some 3, urls := [httpx_entry] } =
      .ok [("X", [httpx_entry])] := by
  have h1 : parse_remote_urls [httpx_entry] [] = [("X", [httpx_entry])] := by decide
  simp [parse_remote_mirror_list, MirrorStatusListV3.model_validate,
        MirrorStatusListV3.check_model, h1, Except.bind, bind, pure, Except.pure,
        List.mergeSort_singleton]

/-- The feed entry refuting the rounded-score part of C2 as stated:
its raw score 99.6 passes the `score >= 100` test although its rounded
score is 100 (the rounding validator is never registered). -/
def score996_entry : MirrorStatusEntryV3 :=
  { url := "https://y/", protocol := "https", active := true, country := "Y",
    country_code := "YY", isos := true, ipv4 := true, ipv6 := true, details := "",
    last_sync := some 0, score := some (mkRat 996 10) }

/-- Counterexample for C2 as stated: a valid version-3 document whose
single entry survives the filter although its rounded score is 100
(the program compares the raw float, since `validate_score` is never
registered), and another whose single entry survives although its URL
scheme is neither `http` nor `https`. -/
theorem remote_parse_filter_counterexample :
    (parse_remote_mirror_list { version := some 3, urls := [score996_entry] } =
        .ok [("Y", [score996_entry])] ∧
      ∃ s, score996_entry.score = some s ∧ 100 ≤ py_round s) ∧
    (parse_remote_mirror_list { version := some 3, urls := [httpx_entry] } =
        .ok [("X", [httpx_entry])] ∧
      py_urlparse_scheme httpx_entry.url ≠ "http" ∧
      py_urlparse_scheme httpx_entry.url ≠ "https") := by
  refine ⟨⟨?_, by decide⟩, httpx_doc_parses, by decide, by decide⟩
  have h1 : parse_remote_urls [score996_entry] [] = [("Y", [score996_entry])] := by decide
  simp [parse_remote_mirror_list, MirrorStatusListV3.model_validate,
        MirrorStatusListV3.check_model, h1, Except.bind, bind, pure, Except.pure,
        List.mergeSort_singleton]

/-- Witness for C2 at the concrete surviving entry. -/
theorem remote_parse_filter_witness :
    httpx_entry.active = true ∧ httpx_entry.last_sync.isSome = true ∧
    (∃ s, httpx_entry.score = some s ∧ s < 100) ∧
    py_startswith httpx_entry.url "http" = true := by
  have h := remote_parse_filter { version := some 3, urls := [httpx_entry] }
    [("X", [httpx_entry])] httpx_doc_parses
    "X" [httpx_entry] httpx_entry (by decide) (by decide)
  exact ⟨h.1, h.2.1, h.2.2.1, h.2.2.2.1⟩

/-- Helper: membership after a bare `setdefault(k, [])`. -/
theorem mem_setdefault_empty :
    ∀ (m : Mapping) (k region : String) (es : List MirrorStatusEntryV3),
      (region, es) ∈ setdefault_empty m k → (region, es) ∈ m ∨ es = [] := by
  intro m
  induction m with
  | nil =>
    intro k region es h
    simp only [setdefault_empty, List.mem_singleton, Prod.mk.injEq] at h
    exact Or.inr h.2
  | cons p rest ih =>
    intro k region es h
    rcases p with ⟨k0, v⟩
    simp only [setdefault_empty] at h
    by_cases hk : k0 = k
    · rw [if_pos hk] at h
      exact Or.inl h
    · rw [if_neg hk] at h
      rcases List.mem_cons.mp h with h1 | h1
      · exact Or.inl (h1 ▸ List.mem_cons_self _ _)
      · rcases ih k region es h1 with h2 | h2
        · exact Or.inl (List.mem_cons_of_mem _ h2)
        · exact Or.inr h2

/-- An entry-level invariant holding for every entry of a mapping. -/
def mapping_all (P : MirrorStatusEntryV3 → Prop) (m : Mapping) : Prop :=
  ∀ region es e, (region, es) ∈ m → e ∈ es → P e

/-- Helper: `setdefault_empty` preserves an entry-level invariant. -/
theorem mapping_all_setdefault_empty {P : MirrorStatusEntryV3 → Prop} {m : Mapping}
    (h : mapping_all P m) (k : String) : mapping_all P (setdefault_empty m k) := by
  intro region es e hmem he
  rcases mem_setdefault_empty m k region es hmem with h1 | h1
  · exact h region es e h1 he
  · rw [h1] at he
    simp at he

/-- Helper: `setdefault_append` preserves an entry-level invariant
provided the appended entry satisfies it. -/
theorem mapping_all_setdefault_append {P : MirrorStatusEntryV3 → Prop} {m : Mapping}
    (h : mapping_all P m) (k : String) {x : MirrorStatusEntryV3} (hx : P x) :
    mapping_all P (setdefault_append m k x) := by
  intro region es e hmem he
  rcases mem_setdefault_append m k x region es e hmem he with ⟨es0, h1, h2⟩ | ⟨_, h2⟩
  · exact h region es0 e h1 h2
  · exact h2 ▸ hx

/-- Helper: one locale-parser step preserves an entry-level invariant
that holds of every locally built entry. -/
theorem mapping_all_locale_step {P : MirrorStatusEntryV3 → Prop}
    (hmk : ∀ region url, P (mk_local_entry region url)) :
    ∀ (st : String × Mapping) (line0 : String), mapping_all P st.2 →
      mapping_all P (locale_step st line0).2 := by
  intro st line0 h
  unfold locale_step locale_step_stripped
  by_cases h1 : py_startswith (py_strip line0) "## "
  · by_cases h2 : py_startswith (py_strip line0) "Server = "
    · by_cases h3 : py_strip (py_replace (py_strip line0) "## " "") = ""
      · simp [h1, h2, h3]
        exact mapping_all_setdefault_append
          (mapping_all_setdefault_empty (mapping_all_setdefault_empty h _) _) _ (hmk _ _)
      · simp [h1, h2, h3]
        exact mapping_all_setdefault_append (mapping_all_setdefault_empty h _) _ (hmk _ _)
    · simp [h1, h2]
      exact mapping_all_setdefault_empty h _
  · by_cases h2 : py_startswith (py_strip line0) "Server = "
    · by_cases h3 : st.1 = ""
      · simp [h1, h2, h3]
        exact mapping_all_setdefault_append (mapping_all_setdefault_empty h _) _ (hmk _ _)
      · simp [h1, h2, h3]
        exact mapping_all_setdefault_append h _ (hmk _ _)
    · simp [h1, h2]
      exact h

/-- Helper: every entry built by the locale parser satisfies an
invariant holding of locally built entries. -/
theorem mapping_all_parse_locale {P : MirrorStatusEntryV3 → Prop}
    (hmk : ∀ region url, P (mk_local_entry region url)) (s : String) :
    mapping_all P (parse_locale_mirrors s) := by
  unfold parse_locale_mirrors
  have main : ∀ (lines : List String) (st : String × Mapping), mapping_all P st.2 →
      mapping_all P (lines.foldl locale_step st).2 := by
    intro lines
    induction lines with
    | nil => exact fun st h => h
    | cons line rest ih =>
      intro st h
      exact ih _ (mapping_all_locale_step hmk st line h)
  refine main _ _ ?_
  intro region es e hmem _
  simp at hmem

/-- Helper: locally parsed entries never carry a score. -/
theorem locale_scores_none (s : String) :
    mapping_all (fun e => e.score = none) (parse_locale_mirrors s) := by
  apply mapping_all_parse_locale
  intro region url
  rfl

/-- The `(score, speed)` sort key of an entry. -/
def sort_key (oracle : MirrorStatusEntryV3 → Nat → DownloadOutcome)
    (e : MirrorStatusEntryV3) : Option Rat × Rat :=
  (e.score, speed_value oracle e)

/-- All entries of a list agree on score presence; Python tuple
comparison is only defined on such lists, and both loaders produce
them. -/
def score_homogeneous (l : List MirrorStatusEntryV3) : Prop :=
  (∀ e ∈ l, e.score.isSome = true) ∨ (∀ e ∈ l, e.score = none)

/-- Helper: the sort comparator is transitive. -/
theorem mirror_sort_le_trans (oracle : MirrorStatusEntryV3 → Nat → DownloadOutcome)
    (a b c : MirrorStatusEntryV3) :
    mirror_sort_le oracle a b = true → mirror_sort_le oracle b c = true →
    mirror_sort_le oracle a c = true := by
  intro h1 h2
  unfold mirror_sort_le at h1 h2 ⊢
  rcases ha : a.score with _ | x <;> rcases hb : b.score with _ | y <;>
    rcases hc : c.score with _ | z <;> simp_all
  · exact le_trans h1 h2
  · split_ifs at h1 h2 ⊢ <;>
      first
        | exact le_trans h1 h2
        | linarith
        | simp_all

/-- Helper: the sort comparator is total. -/
theorem mirror_sort_le_total (oracle : MirrorStatusEntryV3 → Nat → DownloadOutcome)
    (a b : MirrorStatusEntryV3) :
    (mirror_sort_le oracle a b || mirror_sort_le oracle b a) = true := by
  unfold mirror_sort_le
  rcases ha : a.score with _ | x <;> rcases hb : b.score with _ | y <;> simp_all
  · exact le_total _ _
  · split_ifs with e1 e2 <;>
      first
        | exact le_total _ _
        | exact lt_or_gt_of_ne e1
        | simp_all

/-- Helper: entries with equal sort keys compare favourably, so a
stable sort keeps their relative order. -/
theorem mirror_sort_le_of_key_eq (oracle : MirrorStatusEntryV3 → Nat → DownloadOutcome)
    {a b : MirrorStatusEntryV3} (h : sort_key oracle a = sort_key oracle b) :
    mirror_sort_le oracle a b = true := by
  unfold sort_key at h
  have h1 : a.score = b.score := congrArg Prod.fst h
  have h2 : speed_value oracle a = speed_value oracle b := congrArg Prod.snd h
  unfold mirror_sort_le
  rcases hb : b.score with _ | y <;> rw [h1, hb] <;> simp [h2]

/-- C3: both loaders produce score-homogeneous regions (remote entries
all carry a score, local entries never do), and on any such region
`get_status_by_region` ignores the `speed_sort` flag and returns the
region's entries stably sorted ascending by the `(score, speed)` key:
the result is a permutation of the region list, pairwise ordered by
the key comparison, and any two entries with equal keys keep their
relative order. -/
theorem get_status_by_region_sorted :
    (∀ d m, parse_remote_mirror_list d = .ok m →
      ∀ region es, (region, es) ∈ m → score_homogeneous es) ∧
    (∀ s region es, (region, es) ∈ parse_locale_mirrors s → score_homogeneous es) ∧
    (∀ (m : Mapping) (region : String) (entries : List MirrorStatusEntryV3)
      (oracle : MirrorStatusEntryV3 → Nat → DownloadOutcome) (b1 b2 : Bool),
      dict_get m region = some entries → score_homogeneous entries →
      get_status_by_region m region b1 oracle = get_status_by_region m region b2 oracle ∧
      ∃ l, get_status_by_region m region b1 oracle = some l ∧
        l.Perm entries ∧
        l.Pairwise (fun a b => mirror_sort_le oracle a b = true) ∧
        (∀ a b, List.Sublist [a, b] entries → sort_key oracle a = sort_key oracle b →
          List.Sublist [a, b] l)) := by
  refine ⟨?_, ?_, ?_⟩
  · intro d m hok region es hmem
    left
    intro e he
    obtain ⟨_, _, ⟨s, hs, _⟩, _, _⟩ :=
      remote_mapping_entry_props d m hok region es e hmem he
    simp [hs]
  · intro s region es hmem
    right
    intro e he
    exact locale_scores_none s region es e hmem he
  · intro m region entries oracle b1 b2 hget _
    have htrans : ∀ a b c, mirror_sort_le oracle a b → mirror_sort_le oracle b c →
        mirror_sort_le oracle a c := mirror_sort_le_trans oracle
    have htotal : ∀ a b, (mirror_sort_le oracle a b || mirror_sort_le oracle b a) = true :=
      mirror_sort_le_total oracle
    refine ⟨rfl, entries.mergeSort (mirror_sort_le oracle), ?_, ?_, ?_, ?_⟩
    · simp [get_status_by_region, hget]
    · exact List.mergeSort_perm entries _
    · exact List.sorted_mergeSort htrans htotal entries
    · intro a b hsub hkey
      exact List.pair_sublist_mergeSort htrans htotal
        (mirror_sort_le_of_key_eq oracle hkey) hsub

/-- A concrete two-entry region with a score tie, for the C3
witness. -/
def c3_entry_a : MirrorStatusEntryV3 :=
  { url := "https://a/", protocol := "https", active := true, country := "R",
    country_code := "RR", isos := true, ipv4 := true, ipv6 := true, details := "",
    last_sync := some 0, score := some 3, speed_cache := some 5 }

/-- Second entry of the C3 witness region. -/
def c3_entry_b : MirrorStatusEntryV3 :=
  { url := "https://b/", protocol := "https", active := true, country := "R",
    country_code := "RR", isos := true, ipv4 := true, ipv6 := true, details := "",
    last_sync := some 0, score := some 3, speed_cache := some 5 }

/-- Witness for C3 at a concrete mapping: the flag value does not
change the result and the result is a sorted permutation of the
region. -/
theorem get_status_by_region_sorted_witness :
    get_status_by_region [("R", [c3_entry_a, c3_entry_b])] "R" true (fun _ _ => .transient) =
      get_status_by_region [("R", [c3_entry_a, c3_entry_b])] "R" false (fun _ _ => .transient) ∧
    ∃ l, get_status_by_region [("R", [c3_entry_a, c3_entry_b])] "R" true
        (fun _ _ => .transient) = some l ∧
      l.Perm [c3_entry_a, c3_entry_b] := by
  have h := get_status_by_region_sorted.2.2 [("R", [c3_entry_a, c3_entry_b])] "R"
    [c3_entry_a, c3_entry_b] (fun _ _ => .transient) true false (by decide)
    (Or.inl (by decide))
  rcases h with ⟨hflag, l, hl, hperm, _, _⟩
  exact ⟨hflag, l, hl, hperm⟩

/-- Grammar step following the claim wording for C8 (refinement
comparison definition): a line starting with `## ` opens/selects a
region named by the trimmed remainder of the line after the marker; a
line starting with `Server = ` appends an entry to the current region,
defaulting to region `Local` when no region has been opened. -/
def locale_spec_step_stripped (st : String × Mapping) (line : String) : String × Mapping :=
  if py_startswith line "## " then
    let r := py_strip ⟨line.data.drop 3⟩
    (r, setdefault_empty st.2 r)
  else if py_startswith line "Server = " then
    let cur := if st.1 = "" then "Local" else st.1
    let m1 := if st.1 = "" then setdefault_empty st.2 "Local" else st.2
    (cur, setdefault_append m1 cur (mk_local_entry cur (py_removepre line "Server = ")))
  else st

/-- The claim-worded grammar applied to a whole file. -/
def locale_grammar_spec (s : String) : Mapping :=
  ((py_splitlines s).foldl
    (fun st line0 => locale_spec_step_stripped st (py_strip line0)) ("", [])).2

/-- The amended grammar step: as the claim words it, except that the
region is named by the line with every occurrence of `## ` removed and
the result trimmed (which is what `line.replace('## ', '').strip()`
computes); on lines whose marker does not reoccur this is the trimmed
remainder. -/
def locale_amended_step_stripped (st : String × Mapping) (line : String) :
    String × Mapping :=
  if py_startswith line "## " then
    let r := py_strip (py_replace line "## " "")
    (r, setdefault_empty st.2 r)
  else if py_startswith line "Server = " then
    let cur := if st.1 = "" then "Local" else st.1
    let m1 := if st.1 = "" then setdefault_empty st.2 "Local" else st.2
    (cur, setdefault_append m1 cur (mk_local_entry cur (py_removepre line "Server = ")))
  else st

/-- The amended grammar applied to a whole file. -/
def locale_grammar_amended (s : String) : Mapping :=
  ((py_splitlines s).foldl
    (fun st line0 => locale_amended_step_stripped st (py_strip line0)) ("", [])).2

/-- Helper: a line starting with `## ` does not start with
`Server = `. -/
theorem hash_not_server (l : String) (h : py_startswith l "## " = true) :
    py_startswith l "Server = " = false := by
  unfold py_startswith at h ⊢
  rw [List.isPrefixOf_iff_prefix] at h
  rcases h with ⟨t, ht⟩
  by_contra hb
  rw [Bool.not_eq_false, List.isPrefixOf_iff_prefix] at hb
  rcases hb with ⟨u, hu⟩
  rw [show ("## ").data = ['#', '#', ' '] from rfl] at ht
  rw [show ("Server = ").data = ['S', 'e', 'r', 'v', 'e', 'r', ' ', '=', ' '] from rfl,
     ← ht] at hu
  simp only [List.cons_append] at hu
  injection hu with h1 _
  exact absurd h1 (by decide)

/-- Helper: the source line step agrees with the amended grammar
step. -/
theorem locale_step_eq_amended (st : String × Mapping) (line : String) :
    locale_step_stripped st line = locale_amended_step_stripped st line := by
  unfold locale_step_stripped locale_amended_step_stripped
  by_cases h1 : py_startswith line "## "
  · have h2 : py_startswith line "Server = " = false := hash_not_server line h1
    simp [h1, h2]
  · by_cases h2 : py_startswith line "Server = "
    · by_cases h3 : st.1 = "" <;> simp [h1, h2, h3]
    · simp [h1, h2]

/-- The two-region input of the C8 claim. -/
def c8_input : String :=
  "## RegionA\nServer = https://a/test/$repo/os/$arch\n## RegionB\nServer = https://b/test/$repo/os/$arch\n"

/-- C8 (amended): the local parser follows the claimed line grammar
with the region-naming rule amended to remove every occurrence of the
`## ` marker (not only the leading one); in particular the two-region
input of the claim yields exactly two regions, each with one entry
whose stored url drops the `$repo/os/$arch` suffix. -/
theorem locale_parse_grammar :
    (∀ s, parse_locale_mirrors s = locale_grammar_amended s) ∧
    parse_locale_mirrors c8_input =
      [("RegionA", [mk_local_entry "RegionA" "https://a/test/$repo/os/$arch"]),
       ("RegionB", [mk_local_entry "RegionB" "https://b/test/$repo/os/$arch"])] ∧
    (mk_local_entry "RegionA" "https://a/test/$repo/os/$arch").url = "https://a/test/" ∧
    (mk_local_entry "RegionB" "https://b/test/$repo/os/$arch").url = "https://b/test/" := by
  refine ⟨?_, by decide, by decide, by decide⟩
  intro s
  unfold parse_locale_mirrors locale_grammar_amended
  have hstep : locale_step = fun st line0 => locale_amended_step_stripped st (py_strip line0) := by
    funext st line0
    exact locale_step_eq_amended st (py_strip line0)
  rw [hstep]

/-- The input refuting the region-naming sentence of C8 as stated: the
marker `## ` reoccurs inside the region line. -/
def c8_marker_input : String := "## A ## B\nServer = https://x/$repo/os/$arch"

/-- Counterexample for C8 as stated: on a region line containing a
second `## ` marker the source names the region `A B` (replace-all)
while the claimed grammar names it `A ## B` (trimmed remainder), so
the parses differ. -/
theorem locale_marker_counterexample :
    parse_locale_mirrors c8_marker_input ≠ locale_grammar_spec c8_marker_input := by
  decide
